import Mathlib

/-!
Verification of the kbmapi (Triton key backup and management API) server
against its natural-language specification.

The JavaScript source is shallowly embedded: records persisted in moray
become Lean structures, ISO 8601 timestamps are kept as strings (optional
fields are `Option String`), store writes become pure functions on lists of
records, and moray batch requests become explicit operation lists applied
in order.  Each section names the source file and function it embeds.
-/

/-- A recovery token row as stored in the kbmapi_recovery_tokens bucket and
as serialized by RecoveryToken.prototype.serialize (lib/models/recovery-token.js). -/
structure RecoveryTokenRec where
  uuid : String
  pivtoken : String
  recovery_configuration : String
  token : String
  created : String
  staged : Option String := none
  activated : Option String := none
  expired : Option String := none
deriving Repr, DecidableEq

/-- A recovery configuration row as stored in the kbmapi_recovery_configs
bucket (lib/models/recovery-configuration.js).  `created` is optional so
that the derived state "new" of fsm-transition.js is representable. -/
structure RecCfg where
  uuid : String
  template : String
  created : Option String := none
  staged : Option String := none
  activated : Option String := none
  expired : Option String := none
deriving Repr, DecidableEq

namespace Auth

/-!
Embedding of `signatureAuth` (lib/app.js, lines 334-419).

The function picks the HMAC verification key with

    var reqTokens = piv.recovery_tokens.sort(function (a, b) {
        return a.created - b.created;
    });
    key = reqTokens[reqTokens.length - 1]['token'];

`a.created - b.created` applies the JavaScript ToNumber coercion to both
ISO 8601 strings.  ToNumber of a string that is not a numeric literal is
NaN, and per ECMAScript SortCompare a comparator result of NaN is treated
as +0, so the (stable, ES2019) sort leaves the array unchanged.
-/

/-- Is this character a decimal digit (0-9)?  Defined on the character
code so that concrete evaluation reduces in the kernel. -/
def isDigitChar (c : Char) : Bool :=
  48 ≤ c.toNat && c.toNat ≤ 57

/-- Decimal value of a digit list (most significant first). -/
def digitsToNat : List Char → Nat → Nat
  | [], acc => acc
  | c :: cs, acc => digitsToNat cs (acc * 10 + (c.toNat - 48))

/-- JavaScript ToNumber restricted to the strings that occur as `created`
values: a nonempty all-digit string denotes that number, anything else
(in particular every ISO 8601 date-time, which contains at least a
hyphen-minus or a letter T) is NaN, modelled as `none`. -/
def jsToNumber (s : String) : Option Int :=
  if s.data ≠ [] && s.data.all isDigitChar then
    some (Int.ofNat (digitsToNat s.data 0))
  else
    none

/-- Strict lexicographic order on character lists, on character codes.
On ISO 8601 date-time strings of equal layout this is the chronological
order. -/
def charListLt : List Char → List Char → Bool
  | [], [] => false
  | [], _ :: _ => true
  | _ :: _, [] => false
  | a :: as, b :: bs =>
    if a.toNat < b.toNat then true
    else if b.toNat < a.toNat then false
    else charListLt as bs

/-- Lexicographic (hence, for ISO 8601 values, chronological) strict order
on strings. -/
def strLt (a b : String) : Bool :=
  charListLt a.data b.data

/-- The comparator `function (a, b) { return a.created - b.created; }` as
consumed by Array.prototype.sort: a NaN result is treated as +0. -/
def jsCompareCreated (a b : RecoveryTokenRec) : Int :=
  match jsToNumber a.created, jsToNumber b.created with
  | some x, some y => x - y
  | _, _ => 0

/-- Stable insertion of one element: the element is placed after every
element that does not compare strictly greater, which is the placement a
stable sort gives. -/
def jsInsert (cmp : α → α → Int) (x : α) : List α → List α
  | [] => [x]
  | y :: ys => if cmp x y < 0 then x :: y :: ys else y :: jsInsert cmp x ys

/-- Stable sort (Array.prototype.sort is required to be stable since
ES2019, and node 2020 / V8 complies). -/
def jsSort (cmp : α → α → Int) (l : List α) : List α :=
  l.foldl (fun acc x => jsInsert cmp x acc) []

/-- Key selection of `signatureAuth` for the hmac-* algorithm family:
sort `recovery_tokens` with the JavaScript comparator above and take the
`token` of the last element. -/
def signatureAuthHmacKey (recovery_tokens : List RecoveryTokenRec) : Option String :=
  let reqTokens := jsSort jsCompareCreated recovery_tokens
  (reqTokens.getLast?).map (fun t => t.token)

/-- What the specification asks for: sort by `created` ascending (ISO 8601
strings compare chronologically as strings) and take the last element. -/
def specNewestTokenKey (recovery_tokens : List RecoveryTokenRec) : Option String :=
  let sorted := jsSort
    (fun a b =>
      if strLt a.created b.created then -1
      else if strLt b.created a.created then 1 else 0)
    recovery_tokens
  (sorted.getLast?).map (fun t => t.token)

/-- A recovery token created later but stored first. -/
def tkNewerFirst : RecoveryTokenRec :=
  { uuid := "11111111-1111-5111-a111-111111111111"
    pivtoken := "75CA077A14C5E45037D7A0740D5602A5"
    recovery_configuration := "aaaaaaaa-aaaa-5aaa-aaaa-aaaaaaaaaaaa"
    token := "token-created-later"
    created := "2020-01-02T00:00:00.000Z" }

/-- A recovery token created earlier but stored last. -/
def tkOlderLast : RecoveryTokenRec :=
  { uuid := "22222222-2222-5222-a222-222222222222"
    pivtoken := "75CA077A14C5E45037D7A0740D5602A5"
    recovery_configuration := "aaaaaaaa-aaaa-5aaa-aaaa-aaaaaaaaaaaa"
    token := "token-created-earlier"
    created := "2020-01-01T00:00:00.000Z" }

end Auth

/-- C1: for a PIV token whose stored `recovery_tokens` array is not in
chronological order, `signatureAuth` does NOT pick the newest recovery
token by `created` as the HMAC key: the comparator `a.created - b.created`
is NaN on ISO 8601 strings, NaN is treated as +0, and the stable sort
leaves the storage order unchanged, so the key is the token stored last
("token-created-earlier") while the newest token by `created` is
"token-created-later". -/
theorem c1_hmac_key_divergence :
    Auth.signatureAuthHmacKey [Auth.tkNewerFirst, Auth.tkOlderLast]
      = some "token-created-earlier"
    ∧ Auth.specNewestTokenKey [Auth.tkNewerFirst, Auth.tkOlderLast]
      = some "token-created-later"
    ∧ ("token-created-earlier" : String) ≠ "token-created-later" := by
  refine ⟨by decide, by decide, by decide⟩

namespace Auth

/-- The serialized PIV token attached to the request by `preloadPivtoken`
(lib/endpoints/pivtokens.js): `signatureAuth` reads only the 9e public key
and the recovery tokens.  `pubkey9e = none` models both a missing
`pubkeys` record and a `pubkeys` record without a 9e member, which the
source treats identically (`!piv.pubkeys || !piv.pubkeys['9e']`). -/
structure PIVTokenSer where
  guid : String
  pubkey9e : Option String
  recovery_tokens : List RecoveryTokenRec
deriving Repr, DecidableEq

/-- Character code lowered as by String.prototype.toLowerCase on ASCII. -/
def lowerCode (c : Char) : Nat :=
  if 65 ≤ c.toNat && c.toNat ≤ 90 then c.toNat + 32 else c.toNat

/-- The first piece of `header.split(' ', 2)`: the characters before the
first space. -/
def firstSpacePiece (s : String) : List Char :=
  s.data.takeWhile (fun c => c.toNat ≠ 32)

/-- `scheme.toLowerCase() === 'signature'` for the scheme extracted from
the Authorization header. -/
def schemeIsSignature (header : String) : Bool :=
  ((firstSpacePiece header).map lowerCode) == ("signature".data.map lowerCode)

/-- `sig.algorithm.toLowerCase().split('-')[0] === 'hmac'`. -/
def algFamilyIsHmac (algorithm : String) : Bool :=
  ((algorithm.data.map lowerCode).takeWhile (fun n => n ≠ 45))
    == ("hmac".data.map lowerCode)

/-- Outcome of the `signatureAuth` middleware before any cryptographic
verification: pass through without verifying, reject, or verify the
parsed signature against the selected key (the cryptography itself lives
in the external http-signature library). -/
inductive AuthResult
  | skipped
  | unauthorized
  | verifyWith (hmac : Bool) (key : Option String)
deriving Repr, DecidableEq

/-- `signatureAuth` (lib/app.js lines 334-419) up to the point where a key
has been selected: pass through when no PIV token with a 9e pubkey is
loaded; 401 when the Authorization header is absent or its scheme is not
Signature; otherwise select the HMAC or 9e key by algorithm family. -/
def signatureAuth (piv : Option PIVTokenSer) (authorization : Option String)
    (algorithm : String) : AuthResult :=
  match piv with
  | none => .skipped
  | some p =>
    match p.pubkey9e with
    | none => .skipped
    | some pk =>
      match authorization with
      | none => .unauthorized
      | some header =>
        if schemeIsSignature header then
          if algFamilyIsHmac algorithm then
            .verifyWith true (signatureAuthHmacKey p.recovery_tokens)
          else
            .verifyWith false (some pk)
        else .unauthorized

/-- The routes of lib/endpoints/pivtokens.js (newer `registerEndpoints`,
lines 1131-1183). -/
inductive Route
  | listpivtokens
  | createpivtoken
  | getpivtoken
  | delpivtoken
  | getpivtokenpin
  | replacepivtoken
  | listtokens
  | updatetokensstate
  | createtoken
  | gettoken
  | updatetoken
  | deltoken
deriving Repr, DecidableEq

/-- Which routes have `mod_auth.signatureAuth` in their handler chain. -/
def isSignatureProtected : Route → Bool
  | .listpivtokens => false
  | .createpivtoken => true
  | .getpivtoken => false
  | .delpivtoken => true
  | .getpivtokenpin => true
  | .replacepivtoken => true
  | .listtokens => true
  | .updatetokensstate => false
  | .createtoken => true
  | .gettoken => true
  | .updatetoken => true
  | .deltoken => true

/-- Observable outcome of a request at the granularity the claim needs:
401 from `signatureAuth`, 404 from a handler whose `req.pivtoken` guard
fails, or the handler body proceeding (`verified` records whether a
signature was actually checked on the way in). -/
inductive HttpOutcome
  | unauthorized
  | notFound
  | proceeded (verified : Bool)
deriving Repr, DecidableEq

/-- First guard of each handler: every pivtoken handler except
`createPivtoken` (and the two list/get routes that do not preload) starts
with `if (!req.pivtoken) return next(new ResourceNotFoundError(...))`. -/
def handlerGate (r : Route) (piv : Option PIVTokenSer) (verified : Bool) : HttpOutcome :=
  match r with
  | .createpivtoken => .proceeded verified
  | .listpivtokens => .proceeded verified
  | .getpivtoken => .proceeded verified
  | _ =>
    match piv with
    | none => .notFound
    | some _ => .proceeded verified

/-- One request through the middleware chain
`preloadPivtoken -> signatureAuth -> handler`: the PIV token is loaded
from the store by guid, `signatureAuth` runs on protected routes, and the
handler guard decides between 404 and the handler body.  `verifyOk` is
the outcome of the external cryptographic verification (including the
admin-key fallback) when a key was selected. -/
def routeOutcome (r : Route) (store : List PIVTokenSer) (guid : String)
    (authorization : Option String) (algorithm : String) (verifyOk : Bool) :
    HttpOutcome :=
  let piv := store.find? (fun p => p.guid == guid)
  if isSignatureProtected r then
    match signatureAuth piv authorization algorithm with
    | .skipped => handlerGate r piv false
    | .unauthorized => .unauthorized
    | .verifyWith _ _ => if verifyOk then handlerGate r piv true else .unauthorized
  else handlerGate r piv false

end Auth

/-- C2 counterexample: a DELETE /pivtokens/:guid request for a guid with
no stored PIV token and no Authorization header.  The route is
signature-protected and is not create-PIV-token, yet `signatureAuth`
skips authentication (it passes through whenever no PIV token is loaded,
on every route) and the request ends in 404 from the handler guard, not
in the unauthorized error the claim requires. -/
theorem c2_counterexample :
    Auth.signatureAuth none none "rsa-sha256" = Auth.AuthResult.skipped
    ∧ Auth.Route.delpivtoken ≠ Auth.Route.createpivtoken
    ∧ Auth.routeOutcome .delpivtoken [] "75CA077A14C5E45037D7A0740D5602A5"
        none "rsa-sha256" true = Auth.HttpOutcome.notFound
    ∧ Auth.HttpOutcome.notFound ≠ Auth.HttpOutcome.unauthorized := by
  refine ⟨rfl, by decide, by decide, by decide⟩

/-- C2 amended: whenever a PIV token with a 9e pubkey is loaded for the
target guid, a missing Authorization header or a non-Signature scheme
yields unauthorized on every signature-protected route; `signatureAuth`
passes through without verification exactly when no loaded PIV token
carries a 9e pubkey (regardless of the route); and on a protected route
other than create-PIV-token an absent PIV token ends in not-found, so no
handler body ever runs unauthenticated when a PIV token exists. -/
theorem c2_auth_gate (r : Auth.Route) (store : List Auth.PIVTokenSer)
    (guid : String) (authorization : Option String) (algorithm : String)
    (verifyOk : Bool) (hprot : Auth.isSignatureProtected r = true) :
    (∀ p, store.find? (fun q => q.guid == guid) = some p →
      p.pubkey9e.isSome →
      (authorization = none ∨
        ∃ h, authorization = some h ∧ Auth.schemeIsSignature h = false) →
      Auth.routeOutcome r store guid authorization algorithm verifyOk
        = Auth.HttpOutcome.unauthorized)
    ∧ (Auth.signatureAuth (store.find? (fun q => q.guid == guid))
          authorization algorithm = Auth.AuthResult.skipped →
        store.find? (fun q => q.guid == guid) = none ∨
        ∃ p, store.find? (fun q => q.guid == guid) = some p ∧ p.pubkey9e = none)
    ∧ (store.find? (fun q => q.guid == guid) = none →
        r ≠ Auth.Route.createpivtoken →
        Auth.routeOutcome r store guid authorization algorithm verifyOk
          = Auth.HttpOutcome.notFound) := by
  refine ⟨?_, ?_, ?_⟩
  · intro p hfind h9e hbad
    have hpk : ∃ pk, p.pubkey9e = some pk := by
      cases hp : p.pubkey9e with
      | none => rw [hp] at h9e; simp at h9e
      | some pk => exact ⟨pk, rfl⟩
    obtain ⟨pk, hpk⟩ := hpk
    rcases hbad with hnone | ⟨h, hsome, hscheme⟩
    · simp only [Auth.routeOutcome, hprot, hfind, hnone, Auth.signatureAuth, hpk,
        if_true]
    · simp only [Auth.routeOutcome, hprot, hfind, hsome, Auth.signatureAuth, hpk,
        hscheme, if_true]
      simp [hscheme]
  · intro hskip
    cases hfind : store.find? (fun q => q.guid == guid) with
    | none => exact Or.inl rfl
    | some p =>
      refine Or.inr ⟨p, rfl, ?_⟩
      rw [hfind] at hskip
      cases hpk : p.pubkey9e with
      | none => rfl
      | some pk =>
        exfalso
        simp only [Auth.signatureAuth, hpk] at hskip
        cases authorization with
        | none => simp at hskip
        | some h =>
          by_cases hs : Auth.schemeIsSignature h
          · by_cases ha : Auth.algFamilyIsHmac algorithm <;>
              simp [hs, ha] at hskip
          · simp [hs] at hskip
  · intro hfind hr
    have hgate : Auth.handlerGate r none false = Auth.HttpOutcome.notFound := by
      cases r <;> first | rfl | (exfalso; exact hr rfl) | (exfalso; simp [Auth.isSignatureProtected] at hprot)
    simp only [Auth.routeOutcome, hprot, hfind, Auth.signatureAuth, if_true]
    exact hgate

/-- A stored PIV token with a 9e pubkey, used as a concrete witness input. -/
def pivWithKey : Auth.PIVTokenSer :=
  { guid := "75CA077A14C5E45037D7A0740D5602A5"
    pubkey9e := some "ssh-rsa AAAA"
    recovery_tokens := [] }

/-- C2 witness: the amended theorem applied at a concrete protected route,
store and request: a loaded PIV token with a 9e pubkey and an absent
Authorization header produce the unauthorized outcome. -/
theorem c2_auth_gate_witness :
    Auth.routeOutcome .delpivtoken [pivWithKey]
      "75CA077A14C5E45037D7A0740D5602A5" none "rsa-sha256" true
      = Auth.HttpOutcome.unauthorized := by
  exact (c2_auth_gate .delpivtoken [pivWithKey]
      "75CA077A14C5E45037D7A0740D5602A5" none "rsa-sha256" true rfl).1
    pivWithKey (by decide) (by decide) (Or.inl rfl)

namespace PivDelete

/-!
Embedding of `archiveAndDeletePivtoken` (lib/endpoints/pivtokens.js,
lines 589-619) and `deletePIVToken` (lib/models/pivtoken.js, lines
337-379).

The endpoint helper first calls `mod_pivtoken_history.create` (one moray
put) and only in its callback calls `mod_pivtoken.del`, which issues one
moray batch containing the pivtoken delete and a deleteMany of its
recovery tokens.  Each element of the emitted list below is one separate
round trip to the store; moray persists each call individually.
-/

/-- The raw PIV token row (`token.raw()`), abstracted to its key and an
opaque payload -- `archiveAndDeletePivtoken` never inspects the other
fields. -/
structure PIVTokenRaw where
  guid : String
  payload : String
deriving Repr, DecidableEq

/-- One persisted moray call: either the history put issued by
`mod_pivtoken_history.create` or one all-or-nothing batch. -/
inductive BatchOp
  | delPivtoken (guid : String)
  | delManyRecoveryTokens (pivtokenGuid : String)
deriving Repr, DecidableEq

inductive MorayCall
  | putHistory (t : PIVTokenRaw)
  | batch (ops : List BatchOp)
deriving Repr, DecidableEq

/-- The store state the two calls touch. -/
structure PivStore where
  pivtokens : List PIVTokenRaw
  recovery_tokens : List RecoveryTokenRec
  history : List PIVTokenRaw
deriving Repr, DecidableEq

/-- The sequence of store calls made by `archiveAndDeletePivtoken`:
first the history put, then (in the callback) the delete batch built by
`deletePIVToken`. -/
def archiveAndDeletePivtoken (t : PIVTokenRaw) : List MorayCall :=
  [ .putHistory t,
    .batch [ .delPivtoken t.guid,
             .delManyRecoveryTokens t.guid ] ]

def applyBatchOp (s : PivStore) : BatchOp → PivStore
  | .delPivtoken guid =>
    { s with pivtokens := s.pivtokens.filter (fun p => p.guid ≠ guid) }
  | .delManyRecoveryTokens guid =>
    { s with recovery_tokens :=
        s.recovery_tokens.filter (fun r => r.pivtoken ≠ guid) }

def applyMorayCall (s : PivStore) : MorayCall → PivStore
  | .putHistory t => { s with history := s.history ++ [t] }
  | .batch ops => ops.foldl applyBatchOp s

def runCalls (s : PivStore) (calls : List MorayCall) : PivStore :=
  calls.foldl applyMorayCall s

/-- A concrete PIV token together with its recovery token. -/
def tokEx : PIVTokenRaw := { guid := "75CA077A14C5E45037D7A0740D5602A5", payload := "raw" }

def recEx : RecoveryTokenRec :=
  { uuid := "33333333-3333-5333-a333-333333333333"
    pivtoken := "75CA077A14C5E45037D7A0740D5602A5"
    recovery_configuration := "aaaaaaaa-aaaa-5aaa-aaaa-aaaaaaaaaaaa"
    token := "sometoken"
    created := "2020-01-01T00:00:00.000Z" }

def storeEx : PivStore :=
  { pivtokens := [tokEx], recovery_tokens := [recEx], history := [] }

end PivDelete

/-- C3 counterexample: deleting a PIV token is not one all-or-nothing
store operation.  `archiveAndDeletePivtoken` issues two separate moray
calls (a history put, then a delete batch), and after the first call has
been persisted but before the second runs, the store holds the history
row while the PIV token and its recovery token are still present -- the
intermediate state the claim says is never persisted. -/
theorem c3_counterexample :
    (PivDelete.archiveAndDeletePivtoken PivDelete.tokEx).length = 2
    ∧ (PivDelete.archiveAndDeletePivtoken PivDelete.tokEx).head?
      = some (.putHistory PivDelete.tokEx)
    ∧ (PivDelete.runCalls PivDelete.storeEx [.putHistory PivDelete.tokEx])
      = { pivtokens := [PivDelete.tokEx],
          recovery_tokens := [PivDelete.recEx],
          history := [PivDelete.tokEx] }
    ∧ ([PivDelete.tokEx] : List PivDelete.PIVTokenRaw) ≠ [] := by
  refine ⟨rfl, rfl, by decide, by decide⟩

/-- C3 amended: deletion is two store calls, not one.  The first call
appends exactly one history row; the second call is a single
all-or-nothing batch that deletes the PIV token row and delete-manys
exactly the recovery tokens whose `pivtoken` equals the guid, leaving
every other row untouched.  Only the pivtoken delete and the
recovery-token delete-many are atomic with each other; the history insert
is a separate earlier write. -/
theorem c3_delete_effects (s : PivDelete.PivStore) (t : PivDelete.PIVTokenRaw) :
    PivDelete.archiveAndDeletePivtoken t
      = [ .putHistory t,
          .batch [ .delPivtoken t.guid, .delManyRecoveryTokens t.guid ] ]
    ∧ PivDelete.runCalls s (PivDelete.archiveAndDeletePivtoken t)
      = { pivtokens := s.pivtokens.filter (fun p => p.guid ≠ t.guid),
          recovery_tokens := s.recovery_tokens.filter (fun r => r.pivtoken ≠ t.guid),
          history := s.history ++ [t] } := by
  constructor
  · rfl
  · rfl

namespace PivCreateRoute

/-!
Embedding of the existing-token branch of `createPivtoken`
(lib/endpoints/pivtokens.js, lines 706-762, the 2020 variant).

Timestamps are modelled in milliseconds since epoch, as produced by
`new Date(latestToken.created).getTime()` and `new Date().getTime()`.
`req.params.recovery_configuration` is an `Option String`; the strict
equality `undefined === latestToken.recovery_configuration` of the source
is `Option.some`-equality, so an omitted parameter never matches.
-/

/-- The fields of a serialized recovery token the route reads. -/
structure RtTok where
  recovery_configuration : String
  createdMs : Int
deriving Repr, DecidableEq

/-- The serialized PIV token on the request (`req.pivtoken`). -/
structure PivSer where
  guid : String
  recovery_tokens : List RtTok
deriving Repr, DecidableEq

/-- Result of the route: `replay` is the 200 response returning the
existing PIV token with its stored token list unchanged; `appended` is
the 200 response after `mod_recovery_token.create` pushed a fresh token;
`created` is the 201 fresh-create path; `jsError` models the TypeError
the source would throw on a PIV token with no recovery tokens. -/
inductive CreateOutcome
  | replay (status : Nat) (tokens : List RtTok)
  | appended (status : Nat) (tokens : List RtTok)
  | created (status : Nat)
  | jsError
deriving Repr, DecidableEq

/-- `createPivtoken` for a request whose guid may or may not name an
existing PIV token.  `paramRC` is `req.params.recovery_configuration`,
`nowMs` is `new Date().getTime()`, `durSec` is
`req.config.recoveryTokenDuration` (seconds). -/
def createPivtoken (piv : Option PivSer) (paramRC : Option String)
    (nowMs durSec : Int) : CreateOutcome :=
  match piv with
  | none => .created 201
  | some p =>
    match p.recovery_tokens.getLast? with
    | none => .jsError
    | some latestToken =>
      if (nowMs - latestToken.createdMs < durSec * 1000)
          && (paramRC == some latestToken.recovery_configuration) then
        .replay 200 p.recovery_tokens
      else
        .appended 200 (p.recovery_tokens ++
          [{ recovery_configuration :=
               paramRC.getD latestToken.recovery_configuration,
             createdMs := nowMs }])

/-- A PIV token whose single recovery token was created at t = 1000 ms. -/
def pivFresh : PivSer :=
  { guid := "75CA077A14C5E45037D7A0740D5602A5"
    recovery_tokens := [{ recovery_configuration := "aaaaaaaa-aaaa-5aaa-aaaa-aaaaaaaaaaaa"
                          createdMs := 1000 }] }

end PivCreateRoute

/-- C4 counterexample: a repeated create inside the
`recoveryTokenDuration` window whose `recovery_configuration` parameter
is omitted.  The implicit active configuration is the one of the newest
token, so the claim demands a 200 with the stored state unchanged; the
source compares the raw parameter with strict equality, `undefined` never
equals the stored uuid, and the route instead creates and appends a new
recovery token (stored state changes from one token to two). -/
theorem c4_counterexample :
    PivCreateRoute.createPivtoken (some PivCreateRoute.pivFresh) none 2000 10
      = PivCreateRoute.CreateOutcome.appended 200
          [{ recovery_configuration := "aaaaaaaa-aaaa-5aaa-aaaa-aaaaaaaaaaaa"
             createdMs := 1000 },
           { recovery_configuration := "aaaaaaaa-aaaa-5aaa-aaaa-aaaaaaaaaaaa"
             createdMs := 2000 }]
    ∧ (∀ tks, PivCreateRoute.createPivtoken (some PivCreateRoute.pivFresh) none 2000 10
        ≠ PivCreateRoute.CreateOutcome.replay 200 tks) := by
  constructor
  · decide
  · intro tks h
    simp [PivCreateRoute.createPivtoken, PivCreateRoute.pivFresh] at h

/-- C4 amended: a repeated create with the same guid within
`recoveryTokenDuration` seconds of the newest recovery token returns 200
with the existing PIV token and leaves stored state unchanged exactly
when the request explicitly supplies `recovery_configuration` equal to
the newest token's configuration; when the parameter is omitted the route
instead creates a new recovery token for the newest token's configuration
and appends it (still responding 200, but changing stored state). -/
theorem c4_repeat_create (p : PivCreateRoute.PivSer) (paramRC : Option String)
    (nowMs durSec : Int) (latest : PivCreateRoute.RtTok)
    (hlast : p.recovery_tokens.getLast? = some latest)
    (hwin : nowMs - latest.createdMs < durSec * 1000) :
    (paramRC = some latest.recovery_configuration →
      PivCreateRoute.createPivtoken (some p) paramRC nowMs durSec
        = PivCreateRoute.CreateOutcome.replay 200 p.recovery_tokens)
    ∧ (paramRC = none →
      PivCreateRoute.createPivtoken (some p) paramRC nowMs durSec
        = PivCreateRoute.CreateOutcome.appended 200 (p.recovery_tokens ++
            [{ recovery_configuration := latest.recovery_configuration,
               createdMs := nowMs }])) := by
  constructor
  · intro hrc
    simp [PivCreateRoute.createPivtoken, hlast, hrc, hwin]
  · intro hrc
    simp [PivCreateRoute.createPivtoken, hlast, hrc, hwin]

/-- C4 witness: the amended theorem at a concrete input; the explicit
matching parameter yields the unchanged replay. -/
theorem c4_repeat_create_witness :
    PivCreateRoute.createPivtoken (some PivCreateRoute.pivFresh)
      (some "aaaaaaaa-aaaa-5aaa-aaaa-aaaaaaaaaaaa") 2000 10
      = PivCreateRoute.CreateOutcome.replay 200
          PivCreateRoute.pivFresh.recovery_tokens := by
  exact (c4_repeat_create PivCreateRoute.pivFresh
      (some "aaaaaaaa-aaaa-5aaa-aaaa-aaaaaaaaaaaa") 2000 10
      { recovery_configuration := "aaaaaaaa-aaaa-5aaa-aaaa-aaaaaaaaaaaa"
        createdMs := 1000 }
      (by decide) (by decide)).1 rfl

namespace RecTokens

/-!
Embedding of `createRecoveryToken` (lib/models/recovery-token.js, 2020
variant, the `fetchConfig`/`batchQuery` pipeline).

The function fills in a random `token`, the hash-derived `uuid` and a
`created` timestamp before the pipeline; those are taken here as already
present in the params.  `fetchConfig` loads the recovery configuration
and rejects an expired one with invalid-params before any write.
`batchQuery` issues one moray batch: an update that sets `expired` (to
the new token's `created` value) on every token of the same PIV token
having none of staged/activated/expired, followed by a put (etag null,
so it conflicts if the key exists) of the new token, which is born with
`staged`/`activated` stamped from the configuration's current state.
-/

/-- Parameters of one create call after defaults are filled in. -/
structure CreateParams where
  pivtoken : String
  recovery_configuration : String
  token : String
  uuid : String
  created : String
deriving Repr, DecidableEq

/-- Structured errors of the model layer used by the pipeline. -/
inductive KbmErr
  | invalidParams (msg : String)
  | notFound
  | etagConflict
deriving Repr, DecidableEq

/-- The new recovery-token row put by `batchQuery`, with the given
`staged`/`activated` stamps. -/
def mkToken (ps : CreateParams) (staged activated : Option String) :
    RecoveryTokenRec :=
  { uuid := ps.uuid
    pivtoken := ps.pivtoken
    recovery_configuration := ps.recovery_configuration
    token := ps.token
    created := ps.created
    staged := staged
    activated := activated
    expired := none }

/-- The filter of the sibling-expiry update in `batchQuery`:
`(&(pivtoken=P)(!(expired=*))(!(activated=*))(!(staged=*)))`. -/
def unusedSibling (pivtoken : String) (t : RecoveryTokenRec) : Bool :=
  t.pivtoken == pivtoken && t.expired.isNone
    && t.activated.isNone && t.staged.isNone

/-- The sibling-expiry update of `batchQuery`: stamp `expired` with the
new token's `created` on every matching row. -/
def expireUnused (pivtoken created : String) (tks : List RecoveryTokenRec) :
    List RecoveryTokenRec :=
  tks.map (fun t =>
    if unusedSibling pivtoken t then { t with expired := some created } else t)

/-- `createRecoveryToken`: returns the recovery-token bucket after the
call together with the created token or the error; on error nothing is
written. -/
def createRecoveryToken (cfgs : List RecCfg) (tks : List RecoveryTokenRec)
    (ps : CreateParams) (now : String) :
    List RecoveryTokenRec × Except KbmErr RecoveryTokenRec :=
  match cfgs.find? (fun c => c.uuid == ps.recovery_configuration) with
  | none => (tks, .error .notFound)
  | some cfg =>
    if cfg.expired.isSome then
      (tks, .error (.invalidParams
        "Cannot create a recovery token with an expired recovery configuration"))
    else
      let newTk : RecoveryTokenRec := mkToken ps
        (if cfg.staged.isSome then some now else none)
        (if cfg.activated.isSome then some now else none)
      if tks.any (fun t => t.uuid == ps.uuid) then
        (tks, .error .etagConflict)
      else
        (expireUnused ps.pivtoken ps.created tks ++ [newTk], .ok newTk)

/-- The invariant predicate of the claim: a token of (P, C) with `staged`
set and `expired` unset. -/
def stagedUnexpired (p c : String) (t : RecoveryTokenRec) : Bool :=
  t.pivtoken == p && t.recovery_configuration == c
    && t.staged.isSome && t.expired.isNone

/-- A token of (P, C) with `activated` set and `expired` unset. -/
def activatedUnexpired (p c : String) (t : RecoveryTokenRec) : Bool :=
  t.pivtoken == p && t.recovery_configuration == c
    && t.activated.isSome && t.expired.isNone

/-- The sibling-expiry update can only turn a predicate that requires
`expired` unset from true to false, never from false to true. -/
theorem countP_expireUnused_le (q : RecoveryTokenRec → Bool) (c : String)
    (hq : ∀ t : RecoveryTokenRec, q { t with expired := some c } = false)
    (tks : List RecoveryTokenRec) (piv : String) :
    (expireUnused piv c tks).countP q ≤ tks.countP q := by
  rw [expireUnused, List.countP_map]
  refine List.countP_mono_left ?_
  intro t _ ht
  by_cases h : unusedSibling piv t
  · exfalso
    simp only [Function.comp_apply, h, if_true] at ht
    rw [hq t] at ht
    exact Bool.false_ne_true ht
  · simpa only [Function.comp_apply, h, if_false] using ht

/-- A staged recovery configuration, as left by a fleet-wide stage. -/
def cfgStagedEx : RecCfg :=
  { uuid := "aaaaaaaa-aaaa-5aaa-aaaa-aaaaaaaaaaaa"
    template := "AAAA"
    created := some "2020-01-01T00:00:00.000Z"
    staged := some "2020-01-02T00:00:00.000Z" }

/-- An existing staged, unexpired recovery token of (P, C). -/
def tkStagedEx : RecoveryTokenRec :=
  { uuid := "11111111-1111-5111-a111-111111111111"
    pivtoken := "75CA077A14C5E45037D7A0740D5602A5"
    recovery_configuration := "aaaaaaaa-aaaa-5aaa-aaaa-aaaaaaaaaaaa"
    token := "oldtoken"
    created := "2020-01-02T00:00:00.000Z"
    staged := some "2020-01-02T00:00:00.000Z" }

/-- Create parameters for a second token of the same (P, C). -/
def psEx : CreateParams :=
  { pivtoken := "75CA077A14C5E45037D7A0740D5602A5"
    recovery_configuration := "aaaaaaaa-aaaa-5aaa-aaaa-aaaaaaaaaaaa"
    token := "newtoken"
    uuid := "44444444-4444-5444-a444-444444444444"
    created := "2020-01-03T00:00:00.000Z" }

end RecTokens

/-- C5 counterexample: creating a recovery token for a PIV token P under
a configuration C that is already staged.  The new token is born staged,
but the sibling-expiry filter of the same batch only matches siblings
with none of staged/activated/expired, so the existing staged unexpired
token of (P, C) survives and afterwards two tokens of (P, C) have
`staged` set with `expired` unset -- violating the bound the claim says
every operation maintains. -/
theorem c5_counterexample :
    ((RecTokens.createRecoveryToken [RecTokens.cfgStagedEx] [RecTokens.tkStagedEx]
        RecTokens.psEx "2020-01-03T00:00:00.000Z").1).countP
      (RecTokens.stagedUnexpired "75CA077A14C5E45037D7A0740D5602A5"
        "aaaaaaaa-aaaa-5aaa-aaaa-aaaaaaaaaaaa") = 2
    ∧ ¬ (2 ≤ 1) := by
  refine ⟨by decide, by decide⟩

/-- C5 amended: the create batch expires, in the same atomic batch as the
put of the new token, exactly the sibling tokens of the PIV token that
have none of staged/activated/expired set (stamping `expired` with the
new token's `created`).  This preserves the at-most-one
staged-unexpired and at-most-one activated-unexpired bounds per (P, C)
when the configuration is neither staged nor activated at create time;
a create against an already staged (or activated) configuration can
instead produce a second staged (resp. activated) unexpired token of the
same pair, as the counterexample shows. -/
theorem c5_create_preserves (cfgs : List RecCfg) (tks : List RecoveryTokenRec)
    (ps : RecTokens.CreateParams) (now : String) (cfg : RecCfg)
    (hfind : cfgs.find? (fun c => c.uuid == ps.recovery_configuration) = some cfg)
    (hexp : cfg.expired = none)
    (hstaged : cfg.staged = none) (hact : cfg.activated = none)
    (hfresh : tks.any (fun t => t.uuid == ps.uuid) = false) :
    (RecTokens.createRecoveryToken cfgs tks ps now).1
      = RecTokens.expireUnused ps.pivtoken ps.created tks
        ++ [RecTokens.mkToken ps none none]
    ∧ (∀ p c, tks.countP (RecTokens.stagedUnexpired p c) ≤ 1 →
        ((RecTokens.createRecoveryToken cfgs tks ps now).1).countP
          (RecTokens.stagedUnexpired p c) ≤ 1)
    ∧ (∀ p c, tks.countP (RecTokens.activatedUnexpired p c) ≤ 1 →
        ((RecTokens.createRecoveryToken cfgs tks ps now).1).countP
          (RecTokens.activatedUnexpired p c) ≤ 1) := by
  have hres : (RecTokens.createRecoveryToken cfgs tks ps now).1
      = RecTokens.expireUnused ps.pivtoken ps.created tks
        ++ [RecTokens.mkToken ps none none] := by
    simp only [RecTokens.createRecoveryToken, hfind, hexp, hstaged, hact, hfresh,
      Option.isSome_none, Bool.false_eq_true, if_false]
  refine ⟨hres, ?_, ?_⟩
  · intro p c hle
    rw [hres, List.countP_append]
    have h1 := RecTokens.countP_expireUnused_le
      (RecTokens.stagedUnexpired p c) ps.created
      (by intro t; simp [RecTokens.stagedUnexpired]) tks ps.pivtoken
    have h2 : ([RecTokens.mkToken ps none none]).countP
        (RecTokens.stagedUnexpired p c) = 0 := by
      simp [RecTokens.stagedUnexpired, RecTokens.mkToken]
    omega
  · intro p c hle
    rw [hres, List.countP_append]
    have h1 := RecTokens.countP_expireUnused_le
      (RecTokens.activatedUnexpired p c) ps.created
      (by intro t; simp [RecTokens.activatedUnexpired]) tks ps.pivtoken
    have h2 : ([RecTokens.mkToken ps none none]).countP
        (RecTokens.activatedUnexpired p c) = 0 := by
      simp [RecTokens.activatedUnexpired, RecTokens.mkToken]
    omega

namespace RecTokens

/-- A recovery configuration in the plain created state. -/
def cfgCreatedEx : RecCfg :=
  { uuid := "bbbbbbbb-bbbb-5bbb-abbb-bbbbbbbbbbbb"
    template := "BBBB"
    created := some "2020-01-01T00:00:00.000Z" }

/-- A staged token of P under the created configuration. -/
def tkStagedUnderCreatedEx : RecoveryTokenRec :=
  { tkStagedEx with
      recovery_configuration := "bbbbbbbb-bbbb-5bbb-abbb-bbbbbbbbbbbb" }

/-- Create parameters against the created configuration. -/
def psUnderCreatedEx : CreateParams :=
  { psEx with
      recovery_configuration := "bbbbbbbb-bbbb-5bbb-abbb-bbbbbbbbbbbb" }

end RecTokens

/-- C5 witness: the amended theorem applied at a concrete store whose
configuration is neither staged nor activated: the bound 1 is preserved
through the create. -/
theorem c5_create_preserves_witness :
    ((RecTokens.createRecoveryToken [RecTokens.cfgCreatedEx]
        [RecTokens.tkStagedUnderCreatedEx] RecTokens.psUnderCreatedEx
        "2020-01-03T00:00:00.000Z").1).countP
      (RecTokens.stagedUnexpired "75CA077A14C5E45037D7A0740D5602A5"
        "bbbbbbbb-bbbb-5bbb-abbb-bbbbbbbbbbbb") ≤ 1 := by
  exact (c5_create_preserves [RecTokens.cfgCreatedEx]
      [RecTokens.tkStagedUnderCreatedEx] RecTokens.psUnderCreatedEx
      "2020-01-03T00:00:00.000Z" RecTokens.cfgCreatedEx (by decide) rfl rfl rfl
      (by decide)).2.1 _ _ (by decide)

namespace RecTokens

/-- An expired recovery configuration. -/
def cfgExpiredEx : RecCfg :=
  { uuid := "cccccccc-cccc-5ccc-accc-cccccccccccc"
    template := "CCCC"
    created := some "2020-01-01T00:00:00.000Z"
    staged := some "2020-01-02T00:00:00.000Z"
    activated := some "2020-01-03T00:00:00.000Z"
    expired := some "2020-01-04T00:00:00.000Z" }

/-- Create parameters naming the expired configuration. -/
def psAgainstExpiredEx : CreateParams :=
  { psEx with
      recovery_configuration := "cccccccc-cccc-5ccc-accc-cccccccccccc" }

end RecTokens

/-- C10: a recovery-token create naming a recovery configuration whose
`expired` timestamp is set fails with invalid-params from the
`fetchConfig` step, before the batch runs, and the recovery-token bucket
is left exactly as it was -- no new recovery token can reference an
expired configuration. -/
theorem c10_expired_config_create (cfgs : List RecCfg)
    (tks : List RecoveryTokenRec) (ps : RecTokens.CreateParams) (now : String)
    (cfg : RecCfg)
    (hfind : cfgs.find? (fun c => c.uuid == ps.recovery_configuration) = some cfg)
    (hexp : cfg.expired.isSome) :
    RecTokens.createRecoveryToken cfgs tks ps now
      = (tks, .error (.invalidParams
          "Cannot create a recovery token with an expired recovery configuration")) := by
  simp only [RecTokens.createRecoveryToken, hfind, hexp, if_true]

/-- C10 witness: the theorem applied at a concrete store holding one
expired configuration: the call errors and writes nothing. -/
theorem c10_expired_config_create_witness :
    RecTokens.createRecoveryToken [RecTokens.cfgExpiredEx] []
      RecTokens.psAgainstExpiredEx "2020-01-05T00:00:00.000Z"
      = ([], .error (.invalidParams
          "Cannot create a recovery token with an expired recovery configuration")) := by
  exact c10_expired_config_create [RecTokens.cfgExpiredEx] []
    RecTokens.psAgainstExpiredEx "2020-01-05T00:00:00.000Z"
    RecTokens.cfgExpiredEx (by decide) rfl

namespace Sweep

/-!
Embedding of `expireUnusedRecoveryConfigs` (lib/models/index.js, lines
45-171).

`lsConfigs` builds `Object.assign({}, opts, {filter: '(&(activated=*)
(!(expired=*)) )'})` -- but the filter lands on the top level of the
options object, while `listRecoveryConfigurations` and `model.list`
(lib/models/model.js, `listModel`) read only `opts.params.filter`, and
`expireUnusedRecoveryConfigs` has just set `opts.params = {}`.  The list
therefore falls back to the default filter and returns every recovery
configuration.  The sweep then keeps the configurations that have at
least one recovery token and whose tokens are all expired, and
batch-puts each kept row with `expired = now`.
-/

/-- `filterEmptyConfigs`: at least one token references the
configuration and every referencing token is expired. -/
def allTokensExpired (tks : List RecoveryTokenRec) (c : RecCfg) : Bool :=
  let toks := tks.filter (fun t => t.recovery_configuration == c.uuid)
  toks.length ≠ 0 && toks.countP (fun t => t.expired.isSome) == toks.length

/-- `expireUnusedRecoveryConfigs`: every configuration is listed (the
activated-and-not-expired filter is assigned to the wrong options key and
never reaches moray), and each listed configuration whose tokens are all
expired is rewritten with `expired = now`. -/
def expireUnusedRecoveryConfigs (cfgs : List RecCfg)
    (tks : List RecoveryTokenRec) (now : String) : List RecCfg :=
  cfgs.map (fun c =>
    if allTokensExpired tks c then { c with expired := some now } else c)

/-- A configuration that is merely staged: not activated, not expired. -/
def cfgStagedOnly : RecCfg :=
  { uuid := "dddddddd-dddd-5ddd-addd-dddddddddddd"
    template := "DDDD"
    created := some "2020-01-01T00:00:00.000Z"
    staged := some "2020-01-02T00:00:00.000Z" }

/-- An expired recovery token referencing that configuration. -/
def tkExpiredOnly : RecoveryTokenRec :=
  { uuid := "55555555-5555-5555-a555-555555555555"
    pivtoken := "75CA077A14C5E45037D7A0740D5602A5"
    recovery_configuration := "dddddddd-dddd-5ddd-addd-dddddddddddd"
    token := "tok"
    created := "2020-01-02T00:00:00.000Z"
    expired := some "2020-01-10T00:00:00.000Z" }

end Sweep

/-- C7: the auto-expiry sweep modifies a configuration that is NOT in the
activated-but-not-expired state.  A merely staged configuration whose
single recovery token is expired gets `expired = now` written by the
sweep, because the `(&(activated=*)(!(expired=*)))` filter is assigned to
`opts.filter` while the list helper reads `opts.params.filter`, so every
configuration is considered. -/
theorem c7_sweep_divergence :
    Sweep.cfgStagedOnly.activated = none
    ∧ Sweep.cfgStagedOnly.expired = none
    ∧ Sweep.expireUnusedRecoveryConfigs [Sweep.cfgStagedOnly]
        [Sweep.tkExpiredOnly] "2020-02-01T00:00:00.000Z"
      = [{ Sweep.cfgStagedOnly with expired := some "2020-02-01T00:00:00.000Z" }]
    ∧ ({ Sweep.cfgStagedOnly with expired := some "2020-02-01T00:00:00.000Z" }
        : RecCfg) ≠ Sweep.cfgStagedOnly := by
  refine ⟨rfl, rfl, by decide, by decide⟩

/-- A recovery configuration transition row
(kbmapi_recovery_config_transitions bucket).  `errs` entries are the
structured per-target errors; a `none` entry models the empty-object
`\x7b\x7d` placeholder the code prunes. -/
structure TransitionRec where
  uuid : String
  recovery_config_uuid : String
  name : String
  targets : List String
  completed : List String := []
  taskids : List String := []
  errs : List (Option String) := []
  concurrency : Nat := 10
  standalone : Bool := false
  forced : Bool := false
  locked_by : Option String := none
  started : Option String := none
  finished : Option String := none
  aborted : Bool := false
deriving Repr, DecidableEq

namespace Transitioner

/-!
Embedding of the tail of `KbmApiTransitioner.prototype.runTransition`
(transitioner.js): the `completeTransition` step (lines 788-804) sets
`finished = now` on the transition row, and only then
`changeRecoveryConfigurationState` (lines 806-858) may touch the
recovery configuration row: it returns immediately when the transition
is standalone or when the error list, after dropping empty-object
placeholders, is non-empty; otherwise it updates one timestamp of the
configuration chosen by the transition name (stage: set staged;
activate: set activated; deactivate: remove activated; any other name,
i.e. unstage: remove staged).
-/

/-- `errs.filter(function dropEmptyObjects(e) { return Object.keys(e).length !== 0 })`. -/
def dropEmptyObjects (errs : List (Option String)) : List (Option String) :=
  errs.filter (fun e => e.isSome)

/-- One store write of the pipeline tail. -/
inductive TrWrite
  | setFinished (trUuid : String) (at_ : String)
  | updateCfg (cfgUuid : String) (field : String) (remove : Bool) (at_ : String)
deriving Repr, DecidableEq

/-- `completeTransition`: one update of the transition row. -/
def completeTransition (tr : TransitionRec) (now : String) : List TrWrite :=
  [.setFinished tr.uuid now]

/-- `changeRecoveryConfigurationState`: the guarded configuration
update. -/
def changeRecoveryConfigurationState (tr : TransitionRec) (cfgUuid : String)
    (now : String) : List TrWrite :=
  if tr.standalone then []
  else if tr.errs.length != 0 && (dropEmptyObjects tr.errs).length != 0 then []
  else if tr.name == "stage" then [.updateCfg cfgUuid "staged" false now]
  else if tr.name == "activate" then [.updateCfg cfgUuid "activated" false now]
  else if tr.name == "deactivate" then [.updateCfg cfgUuid "activated" true now]
  else [.updateCfg cfgUuid "staged" true now]

/-- The write sequence of the pipeline tail, in execution order. -/
def runTransitionTail (tr : TransitionRec) (cfgUuid : String)
    (finishedAt advanceAt : String) : List TrWrite :=
  completeTransition tr finishedAt
    ++ changeRecoveryConfigurationState tr cfgUuid advanceAt

/-- Does this write touch the recovery configuration row? -/
def isCfgWrite : TrWrite → Bool
  | .updateCfg _ _ _ _ => true
  | .setFinished _ _ => false

end Transitioner

/-- C8: in the transition orchestrator, the first write of the pipeline
tail sets the transition's `finished` timestamp; any write to the
recovery configuration row happens strictly after it (it lies in the
tail of the write sequence) and only when the transition is not
standalone and its error list is empty after dropping empty-object
placeholders; when the pruned error list is non-empty the tail consists
of the finished write alone and the configuration row is untouched. -/
theorem c8_advance_after_finish (tr : TransitionRec) (cfgUuid : String)
    (finishedAt advanceAt : String) :
    (Transitioner.runTransitionTail tr cfgUuid finishedAt advanceAt).head?
      = some (.setFinished tr.uuid finishedAt)
    ∧ (∀ w ∈ Transitioner.runTransitionTail tr cfgUuid finishedAt advanceAt,
        Transitioner.isCfgWrite w = true →
        tr.standalone = false
        ∧ Transitioner.dropEmptyObjects tr.errs = []
        ∧ w ∈ (Transitioner.runTransitionTail tr cfgUuid finishedAt advanceAt).tail)
    ∧ (Transitioner.dropEmptyObjects tr.errs ≠ [] →
        Transitioner.runTransitionTail tr cfgUuid finishedAt advanceAt
          = [.setFinished tr.uuid finishedAt]) := by
  have hops : Transitioner.runTransitionTail tr cfgUuid finishedAt advanceAt
      = .setFinished tr.uuid finishedAt
        :: Transitioner.changeRecoveryConfigurationState tr cfgUuid advanceAt := rfl
  refine ⟨by rw [hops]; rfl, ?_, ?_⟩
  · intro w hw hcfg
    rw [hops] at hw
    rcases List.mem_cons.mp hw with hhead | hmem
    · subst hhead
      exact absurd hcfg (by simp [Transitioner.isCfgWrite])
    · by_cases hs : tr.standalone
      · rw [Transitioner.changeRecoveryConfigurationState, if_pos hs] at hmem
        exact absurd hmem (List.not_mem_nil w)
      · by_cases he : (tr.errs.length != 0
            && (Transitioner.dropEmptyObjects tr.errs).length != 0) = true
        · rw [Transitioner.changeRecoveryConfigurationState, if_neg hs,
            if_pos he] at hmem
          exact absurd hmem (List.not_mem_nil w)
        · refine ⟨by simpa using hs, ?_, by rw [hops]; simpa using hmem⟩
          rcases Bool.and_eq_false_iff.mp (Bool.not_eq_true _ ▸ he) with h0 | h0
          · have : tr.errs = [] := by
              simpa [List.length_eq_zero] using (by simpa using h0 : tr.errs.length = 0)
            simp [Transitioner.dropEmptyObjects, this]
          · simpa [List.length_eq_zero] using
              (by simpa using h0 : (Transitioner.dropEmptyObjects tr.errs).length = 0)
  · intro hne
    rw [hops]
    by_cases hs : tr.standalone
    · rw [Transitioner.changeRecoveryConfigurationState, if_pos hs]
    · have hlen : (Transitioner.dropEmptyObjects tr.errs).length ≠ 0 := by
        intro h0
        exact hne (List.length_eq_zero.mp h0)
    
      have herrs : tr.errs.length ≠ 0 := by
        intro h0
        rw [List.length_eq_zero.mp h0] at hne
        exact hne rfl
      rw [Transitioner.changeRecoveryConfigurationState, if_neg hs, if_pos]
      have h1 : (tr.errs.length != 0) = true := bne_iff_ne.mpr herrs
      have h2 : ((Transitioner.dropEmptyObjects tr.errs).length != 0) = true :=
        bne_iff_ne.mpr hlen
      rw [h1, h2]
      rfl

/-- A finished stage transition with one real per-target error. -/
def trWithErr : TransitionRec :=
  { uuid := "66666666-6666-4666-a666-666666666666"
    recovery_config_uuid := "aaaaaaaa-aaaa-5aaa-aaaa-aaaaaaaaaaaa"
    name := "stage"
    targets := ["15966912-8fad-41cd-bd82-abe6468354b5"]
    errs := [some "task timeout", none] }

/-- C8 witness: the theorem applied at a concrete transition carrying a
real error: the tail is just the finished write and no configuration
write occurs. -/
theorem c8_advance_after_finish_witness :
    Transitioner.runTransitionTail trWithErr
        "aaaaaaaa-aaaa-5aaa-aaaa-aaaaaaaaaaaa" "t1" "t2"
      = [.setFinished "66666666-6666-4666-a666-666666666666" "t1"] := by
  exact (c8_advance_after_finish trWithErr
      "aaaaaaaa-aaaa-5aaa-aaaa-aaaaaaaaaaaa" "t1" "t2").2.2 (by decide)

namespace Fsm

/-!
Embedding of `transition` (lib/models/fsm-transition.js, lines 185-665)
and the endpoint mapping of `updateRecoveryConfiguration`
(lib/endpoints/pivtokens.js, lines 1357-1420).

The vasync pipeline is translated step for step: action validity, the
configuration load, the optional pivtoken-to-target resolution, the
PIV-token count gate, the staged-token count gate for activate, the
state allow-list check, the unfinished-transition lookup, and then the
per-action writing step (create a transition row; advance the
configuration directly when there are no targets; the reactivate batch;
the expire batch; the cancel update).  The output carries the store
after the call, the ordered list of writes (each list element is one
moray round trip; a `batch` element is all-or-nothing), and the
callback's (err, res) pair.
-/

/-- The indexed fields of a PIV token row the gateway reads. -/
structure PivRow where
  guid : String
  cn_uuid : String
deriving Repr, DecidableEq

/-- The store buckets the gateway touches. -/
structure FsmStore where
  cfgs : List RecCfg
  pivtokens : List PivRow
  recTokens : List RecoveryTokenRec
  transitions : List TransitionRec
deriving Repr, DecidableEq

/-- `getRecCfgState` (fsm-transition.js lines 120-143): the derived state
of a configuration from its timestamps. -/
def getRecCfgState (p : RecCfg) : String :=
  if p.created.isNone then "new"
  else if p.staged.isNone then "created"
  else if p.activated.isNone then "staged"
  else if p.expired.isNone then "active"
  else "expired"

/-- `RECOVERY_CONFIGURATION_STATIC_STATES[state].validTransitions`. -/
def validTransitionsOf (state : String) : List String :=
  if state == "new" then ["create"]
  else if state == "created" then ["stage", "destroy"]
  else if state == "staged" then ["unstage", "activate"]
  else if state == "active" then ["expire", "deactivate"]
  else if state == "expired" then ["reactivate", "destroy"]
  else []

/-- The `validActions` list of `transition`. -/
def validActions : List String :=
  ["stage", "unstage", "activate", "deactivate", "expire", "reactivate", "cancel"]

/-- Errors surfaced by the gateway; `invalidParams` is
errors.InvalidParamsError with HTTP status 422. -/
inductive GwErr
  | invalidParams (msg : String)
  | notFound
deriving Repr, DecidableEq

def gwErrStatusCode : GwErr → Nat
  | .invalidParams _ => 422
  | .notFound => 404

/-- The result object of the callback: the configuration and, when one
exists, a transition row. -/
structure TrResult where
  recoveryConfiguration : RecCfg
  transition : Option TransitionRec
deriving Repr, DecidableEq

/-- One operation inside a moray batch issued by the gateway. -/
inductive FsmBatchOp
  | putCfg (c : RecCfg)
  | updateTokensSetExpired (rcUuid : String) (at_ : String)
  | delManyTransitions (rcUuid : String)
  | putToken (t : RecoveryTokenRec)
deriving Repr, DecidableEq

/-- One moray round trip issued by the gateway. -/
inductive FsmWrite
  | putTransition (t : TransitionRec)
  | updateCfg (uuid : String) (field : String) (at_ : String)
  | updateTransitionAborted (uuid : String)
  | batch (ops : List FsmBatchOp)
deriving Repr, DecidableEq

/-- moray put: replace the row with the same key, else append. -/
def putCfgList (cfgs : List RecCfg) (c : RecCfg) : List RecCfg :=
  if cfgs.any (fun x => x.uuid == c.uuid) then
    cfgs.map (fun x => if x.uuid == c.uuid then c else x)
  else cfgs ++ [c]

/-- moray put for recovery tokens. -/
def putTokenList (tks : List RecoveryTokenRec) (t : RecoveryTokenRec) :
    List RecoveryTokenRec :=
  if tks.any (fun x => x.uuid == t.uuid) then
    tks.map (fun x => if x.uuid == t.uuid then t else x)
  else tks ++ [t]

def applyFsmBatchOp (s : FsmStore) : FsmBatchOp → FsmStore
  | .putCfg c => { s with cfgs := putCfgList s.cfgs c }
  | .updateTokensSetExpired rc at_ =>
    { s with recTokens := s.recTokens.map (fun t =>
        if t.recovery_configuration == rc && t.expired.isNone
        then { t with expired := some at_ } else t) }
  | .delManyTransitions rc =>
    { s with transitions :=
        s.transitions.filter (fun t => t.recovery_config_uuid ≠ rc) }
  | .putToken t => { s with recTokens := putTokenList s.recTokens t }

/-- The field update of `updateCfgWhenThereAreNoTargets` via
`mod_recovery_configuration.update`. -/
def setCfgField (c : RecCfg) (field : String) (at_ : String) : RecCfg :=
  if field == "staged" then { c with staged := some at_ }
  else { c with activated := some at_ }

def applyFsmWrite (s : FsmStore) : FsmWrite → FsmStore
  | .putTransition t => { s with transitions := s.transitions ++ [t] }
  | .updateCfg uuid field at_ =>
    { s with cfgs := s.cfgs.map (fun c =>
        if c.uuid == uuid then setCfgField c field at_ else c) }
  | .updateTransitionAborted uuid =>
    { s with transitions := s.transitions.map (fun t =>
        if t.uuid == uuid then { t with aborted := true } else t) }
  | .batch ops => ops.foldl applyFsmBatchOp s

/-- The parameters of one gateway call (`opts.params`). -/
structure TrParams where
  uuid : String
  force : Bool := false
  standalone : Bool := false
  targets : Option (List String) := none
  pivtoken : Option String := none
deriving Repr, DecidableEq

/-- Everything one gateway call produces. -/
structure TrOutput where
  store : FsmStore
  trace : List FsmWrite
  err : Option GwErr
  res : Option TrResult
deriving Repr, DecidableEq

/-- A recovery token with the staged/activated/expired members deleted,
as put by the reactivate batch. -/
def clearTk (t : RecoveryTokenRec) : RecoveryTokenRec :=
  { t with staged := none, activated := none, expired := none }

/-- The unfinished-transition filter of `getTransitions`:
name matches the action (any name for cancel), same configuration,
not aborted, not finished. -/
def pendingFilter (action : String) (cfgUuid : String) (t : TransitionRec) : Bool :=
  (action == "cancel" || t.name == action)
    && t.recovery_config_uuid == cfgUuid
    && !t.aborted && t.finished.isNone

/-- The batch payload of `upConfig` (action expire): put the
configuration with `expired = now` and update-many its unexpired
recovery tokens setting `expired = now`. -/
def expireOps (cfg : RecCfg) (now : String) : List FsmBatchOp :=
  [.putCfg { cfg with expired := some now },
   .updateTokensSetExpired cfg.uuid now]

/-- The batch payload of `removeTransitions` (action reactivate): put
the configuration with staged/activated/expired removed, delete-many
all its transition rows, and put each of its recovery tokens with
staged/activated/expired removed. -/
def reactivateOps (cfg : RecCfg) (tkItems : List RecoveryTokenRec) :
    List FsmBatchOp :=
  [.putCfg { cfg with staged := none, activated := none, expired := none },
   .delManyTransitions cfg.uuid]
    ++ tkItems.map (fun t => .putToken (clearTk t))

/-- `transition` (fsm-transition.js): `newTrUuid` stands for the
`UUID.v4()` drawn for a fresh transition row and `now` for the
timestamps taken during the call. -/
def transition (s : FsmStore) (action : String) (ps : TrParams)
    (newTrUuid now : String) : TrOutput :=
  if !(validActions.contains action) then
    { store := s, trace := [],
      err := some (.invalidParams "Invalid action parameter"), res := none }
  else
    match s.cfgs.find? (fun c => c.uuid == ps.uuid) with
    | none => { store := s, trace := [], err := some .notFound, res := none }
    | some cfg =>
      let targetsRes : Option (Option (List String)) :=
        match ps.pivtoken with
        | none => some ps.targets
        | some g =>
          match s.pivtokens.find? (fun p => p.guid == g) with
          | some p => some (some [p.cn_uuid])
          | none => none
      match targetsRes with
      | none => { store := s, trace := [], err := some .notFound, res := none }
      | some targets0 =>
        let pivCount := s.pivtokens.length
        let subset := match targets0 with
          | some ts => ts.length != 0 && ts.length != pivCount
          | none => false
        if subset && (action != "activate" || !ps.force) then
          { store := s, trace := [],
            err := some (.invalidParams "Invalid targets parameter"),
            res := none }
        else
          let stagedCount := s.recTokens.countP (fun t =>
            t.recovery_configuration == cfg.uuid && t.staged.isSome)
          if action == "activate" && decide (stagedCount < pivCount) && !ps.force then
            { store := s, trace := [],
              err := some (.invalidParams "Missing parameter"), res := none }
          else
            let state := getRecCfgState cfg
            if action != "cancel" && !((validTransitionsOf state).contains action) then
              { store := s, trace := [],
                err := some (.invalidParams "Invalid action for state"),
                res := none }
            else
              let pending := s.transitions.filter (pendingFilter action cfg.uuid)
              if action == "cancel" && pending.isEmpty then
                { store := s, trace := [],
                  err := some (.invalidParams "There are no transitions to be canceled"),
                  res := none }
              else
                let transitioning := !pending.isEmpty
                let targets1 : Option (List String) :=
                  if targets0.isSome || transitioning then targets0
                  else some (s.pivtokens.map (fun p => p.cn_uuid))
                if transitioning then
                  if action == "cancel" then
                    match pending.head? with
                    | none =>
                      { store := s, trace := [],
                        err := some (.invalidParams "There are no transitions to be canceled"),
                        res := none }
                    | some tr0 =>
                      { store := applyFsmWrite s (.updateTransitionAborted tr0.uuid),
                        trace := [.updateTransitionAborted tr0.uuid],
                        err := none,
                        res := some { recoveryConfiguration := cfg,
                                      transition := some { tr0 with aborted := true } } }
                  else
                    { store := s, trace := [],
                      err := some (.invalidParams "Transition already exists"),
                      res := some { recoveryConfiguration := cfg,
                                    transition := pending.head? } }
                else if action == "reactivate" then
                  let ops := reactivateOps cfg (s.recTokens.filter
                    (fun t => t.recovery_configuration == cfg.uuid))
                  { store := applyFsmWrite s (.batch ops),
                    trace := [.batch ops],
                    err := none,
                    res := some { recoveryConfiguration := cfg, transition := none } }
                else if action == "expire" then
                  let ops := expireOps cfg now
                  { store := applyFsmWrite s (.batch ops),
                    trace := [.batch ops],
                    err := none,
                    res := some { recoveryConfiguration := { cfg with expired := some now },
                                  transition := none } }
                else if action == "cancel" then
                  { store := s, trace := [],
                    err := some (.invalidParams "There are no transitions to be canceled"),
                    res := none }
                else
                  let ts := targets1.getD []
                  let tr : TransitionRec :=
                    { uuid := newTrUuid
                      recovery_config_uuid := cfg.uuid
                      name := action
                      targets := ts
                      standalone := ps.standalone
                      forced := ps.force
                      started := if ts.isEmpty then some now else none
                      finished := if ts.isEmpty then some now else none }
                  let s1 := applyFsmWrite s (.putTransition tr)
                  if ts.isEmpty then
                    let field := if action == "stage" then "staged" else "activated"
                    { store := applyFsmWrite s1 (.updateCfg cfg.uuid field now),
                      trace := [.putTransition tr, .updateCfg cfg.uuid field now],
                      err := none,
                      res := some { recoveryConfiguration := cfg,
                                    transition := some tr } }
                  else
                    { store := s1, trace := [.putTransition tr],
                      err := none,
                      res := some { recoveryConfiguration := cfg,
                                    transition := some tr } }

/-- The Location header built by `updateRecoveryConfiguration` when the
result carries a transition with a name. -/
def locationHeader (uuid : String) (r : TrResult) : Option String :=
  match r.transition with
  | some tr =>
    if tr.name != "" then
      some ("/recovery-configurations/" ++ uuid
        ++ "?action=watch&transition=" ++ tr.name)
    else none
  | none => none

/-- The HTTP mapping of `updateRecoveryConfiguration`: an error without a
result is surfaced as its own status; with a result the endpoint sets the
Location header and sends 200 when there was an error and 204 otherwise. -/
def updateRecoveryConfigurationHttp (uuid : String) (o : TrOutput) :
    Nat × Option String :=
  match o.err, o.res with
  | some e, none => (gwErrStatusCode e, none)
  | some _, some r => (200, locationHeader uuid r)
  | none, some r => (204, locationHeader uuid r)
  | none, none => (500, none)

end Fsm

namespace Fsm

/-- A recovery configuration in the created state. -/
def cfgC6 : RecCfg :=
  { uuid := "eeeeeeee-eeee-5eee-aeee-eeeeeeeeeeee"
    template := "EEEE"
    created := some "2020-01-01T00:00:00.000Z" }

/-- An unfinished, non-aborted stage transition for that configuration. -/
def trPend : TransitionRec :=
  { uuid := "77777777-7777-4777-a777-777777777777"
    recovery_config_uuid := "eeeeeeee-eeee-5eee-aeee-eeeeeeeeeeee"
    name := "stage"
    targets := ["15966912-8fad-41cd-bd82-abe6468354b5"] }

/-- A store holding that configuration, one PIV token and the pending
transition. -/
def storeC6 : FsmStore :=
  { cfgs := [cfgC6]
    pivtokens := [{ guid := "75CA077A14C5E45037D7A0740D5602A5"
                    cn_uuid := "15966912-8fad-41cd-bd82-abe6468354b5" }]
    recTokens := []
    transitions := [trPend] }

end Fsm

/-- C6 counterexample: requesting `stage` while an unfinished stage
transition exists.  No new transition row is created (the store is
unchanged and no write is issued), but the error is an invalid-params
error whose HTTP status is 422, and the endpoint, because the callback
passed a companion result next to the error, answers 200 with only a
Location header and no companion body -- not the 409
transition-already-exists response the claim describes. -/
theorem c6_counterexample :
    (Fsm.transition Fsm.storeC6 "stage" { uuid := Fsm.cfgC6.uuid } "u" "t")
      = { store := Fsm.storeC6
          trace := []
          err := some (.invalidParams "Transition already exists")
          res := some { recoveryConfiguration := Fsm.cfgC6
                        transition := some Fsm.trPend } }
    ∧ Fsm.updateRecoveryConfigurationHttp Fsm.cfgC6.uuid
        (Fsm.transition Fsm.storeC6 "stage" { uuid := Fsm.cfgC6.uuid } "u" "t")
      = (200, some ("/recovery-configurations/eeeeeeee-eeee-5eee-aeee-eeeeeeeeeeee"
          ++ "?action=watch&transition=stage"))
    ∧ (200 : Nat) ≠ 409
    ∧ Fsm.gwErrStatusCode (.invalidParams "Transition already exists") = 422
    ∧ (422 : Nat) ≠ 409 := by
  refine ⟨by decide, by decide, by decide, rfl, by decide⟩

/-- C6 amended: when a non-trivial action (stage, unstage, deactivate, or
activate under force) is requested for a configuration that already has
an unfinished, non-aborted transition of the same name, no write is
issued and no transition row is created; the model layer returns an
invalid-params error (HTTP 422) carrying the existing transition and the
configuration as a companion result, and the endpoint responds 200 with
a Location header naming the pending transition (no companion body and
no 409). -/
theorem c6_already_exists (s : Fsm.FsmStore) (action : String)
    (ps : Fsm.TrParams) (newTrUuid now : String) (cfg : RecCfg)
    (trP : TransitionRec) (rest : List TransitionRec)
    (hvalid : action = "stage" ∨ action = "unstage" ∨ action = "activate"
      ∨ action = "deactivate")
    (hfind : s.cfgs.find? (fun c => c.uuid == ps.uuid) = some cfg)
    (hpiv : ps.pivtoken = none) (htgt : ps.targets = none)
    (hforce : action = "activate" → ps.force = true)
    (hstate : (Fsm.validTransitionsOf (Fsm.getRecCfgState cfg)).contains action
      = true)
    (hpending : s.transitions.filter (Fsm.pendingFilter action cfg.uuid)
      = trP :: rest) :
    Fsm.transition s action ps newTrUuid now
      = { store := s
          trace := []
          err := some (.invalidParams "Transition already exists")
          res := some { recoveryConfiguration := cfg
                        transition := some trP } }
    ∧ Fsm.updateRecoveryConfigurationHttp ps.uuid
        (Fsm.transition s action ps newTrUuid now)
      = (200, Fsm.locationHeader ps.uuid
          { recoveryConfiguration := cfg, transition := some trP }) := by
  have hmain : Fsm.transition s action ps newTrUuid now
      = { store := s
          trace := []
          err := some (.invalidParams "Transition already exists")
          res := some { recoveryConfiguration := cfg
                        transition := some trP } } := by
    have hstate' : action ∈ Fsm.validTransitionsOf (Fsm.getRecCfgState cfg) := by
      simpa using hstate
    rcases hvalid with h | h | h | h <;> subst h
    · simp [Fsm.transition, hfind, hpiv, htgt, hpending, hstate',
        Fsm.validActions]
    · simp [Fsm.transition, hfind, hpiv, htgt, hpending, hstate',
        Fsm.validActions]
    · simp [Fsm.transition, hfind, hpiv, htgt, hpending, hstate',
        Fsm.validActions, hforce rfl]
    · simp [Fsm.transition, hfind, hpiv, htgt, hpending, hstate',
        Fsm.validActions]
  refine ⟨hmain, ?_⟩
  rw [hmain]
  rfl

/-- C6 witness: the amended theorem at the concrete store of the
counterexample. -/
theorem c6_already_exists_witness :
    Fsm.transition Fsm.storeC6 "stage" { uuid := Fsm.cfgC6.uuid } "u" "t"
      = { store := Fsm.storeC6
          trace := []
          err := some (.invalidParams "Transition already exists")
          res := some { recoveryConfiguration := Fsm.cfgC6
                        transition := some Fsm.trPend } } := by
  exact (c6_already_exists Fsm.storeC6 "stage" { uuid := Fsm.cfgC6.uuid }
      "u" "t" Fsm.cfgC6 Fsm.trPend [] (Or.inl rfl) (by decide) rfl rfl
      (fun h => absurd h (by decide)) (by decide) (by decide)).1

namespace Fsm

/-- A member of a token put is the put row itself or an untouched row
with a different key. -/
theorem mem_putTokenList {tks : List RecoveryTokenRec} {n x : RecoveryTokenRec}
    (hx : x ∈ putTokenList tks n) :
    x = n ∨ (x ∈ tks ∧ x.uuid ≠ n.uuid) := by
  unfold putTokenList at hx
  by_cases hany : tks.any (fun y => y.uuid == n.uuid)
  · rw [if_pos hany] at hx
    obtain ⟨y, hy, hxy⟩ := List.mem_map.mp hx
    by_cases hid : (y.uuid == n.uuid) = true
    · left
      rw [← hxy, if_pos hid]
    · right
      rw [← hxy, if_neg hid]
      exact ⟨hy, by simpa using hid⟩
  · rw [if_neg hany] at hx
    rcases List.mem_append.mp hx with hmem | heq
    · right
      refine ⟨hmem, ?_⟩
      intro hEq
      exact hany (List.any_eq_true.mpr ⟨x, hmem, beq_iff_eq.mpr hEq⟩)
    · left
      simpa using heq
/-- After folding the cleared-token puts of the reactivate batch, every
row either is one of the cleared puts or is an untouched row whose key
differs from every put. -/
theorem mem_foldl_clear (items : List RecoveryTokenRec) :
    ∀ (acc : List RecoveryTokenRec) (x : RecoveryTokenRec),
    x ∈ items.foldl (fun a t => putTokenList a (clearTk t)) acc →
    (∃ t0, x = clearTk t0) ∨ (x ∈ acc ∧ ∀ t ∈ items, x.uuid ≠ t.uuid) := by
  induction items with
  | nil =>
    intro acc x hx
    right
    exact ⟨by simpa using hx, by intro t ht; exact absurd ht (List.not_mem_nil t)⟩
  | cons t rest ih =>
    intro acc x hx
    rw [List.foldl_cons] at hx
    rcases ih (putTokenList acc (clearTk t)) x hx with hcl | ⟨hmem, hrest⟩
    · exact Or.inl hcl
    · rcases mem_putTokenList hmem with heq | ⟨hacc, hne⟩
      · exact Or.inl ⟨t, heq⟩
      · right
        refine ⟨hacc, ?_⟩
        intro t' ht'
        rcases List.mem_cons.mp ht' with rfl | ht'r
        · exact hne
        · exact hrest t' ht'r

/-- Replacing the row with the put key leaves the first match of a
key search equal to the new row. -/
theorem find?_map_replace (cfgs : List RecCfg) (u : String) (cfg newCfg : RecCfg)
    (hnu : newCfg.uuid = u)
    (hfind : cfgs.find? (fun c => c.uuid == u) = some cfg) :
    (cfgs.map (fun x => if x.uuid == newCfg.uuid then newCfg else x)).find?
      (fun c => c.uuid == u) = some newCfg := by
  induction cfgs with
  | nil => simp at hfind
  | cons x xs ih =>
    by_cases hx : (x.uuid == u) = true
    · have hxn : (x.uuid == newCfg.uuid) = true := by rw [hnu]; exact hx
      have hpn : (newCfg.uuid == u) = true := by rw [hnu]; exact beq_self_eq_true u
      simp only [List.map_cons]
      rw [if_pos hxn]
      exact List.find?_cons_of_pos _ hpn
    · have hxn : ¬ ((x.uuid == newCfg.uuid) = true) := by
        rw [hnu]
        exact hx
      rw [@List.find?_cons_of_neg _ (fun c => c.uuid == u) x xs hx] at hfind
      simp only [List.map_cons]
      rw [if_neg hxn]
      exact Eq.trans
        (@List.find?_cons_of_neg _ (fun c => c.uuid == u) x _ hx) (ih hfind)

/-- moray put of a present key: the key search afterwards returns the
new row. -/
theorem find?_putCfgList (cfgs : List RecCfg) (u : String) (cfg newCfg : RecCfg)
    (hnu : newCfg.uuid = u)
    (hfind : cfgs.find? (fun c => c.uuid == u) = some cfg) :
    (putCfgList cfgs newCfg).find? (fun c => c.uuid == u) = some newCfg := by
  have hp := List.find?_some hfind
  have hany : cfgs.any (fun x => x.uuid == newCfg.uuid) = true := by
    refine List.any_eq_true.mpr ⟨cfg, List.mem_of_find?_eq_some hfind, ?_⟩
    rw [hnu]
    exact hp
  rw [putCfgList, if_pos hany]
  exact find?_map_replace cfgs u cfg newCfg hnu hfind

/-- The token puts of the reactivate batch only rewrite the token
bucket. -/
theorem fold_putToken_store (items : List RecoveryTokenRec) :
    ∀ st : FsmStore,
    List.foldl (fun a t => applyFsmBatchOp a (.putToken (clearTk t))) st items
      = { st with recTokens :=
            items.foldl (fun a t => putTokenList a (clearTk t)) st.recTokens } := by
  induction items with
  | nil => intro st; rfl
  | cons t rest ih =>
    intro st
    rw [List.foldl_cons, List.foldl_cons]
    exact ih { st with recTokens := putTokenList st.recTokens (clearTk t) }

/-- A store whose transitions are all finished has no pending
transition for any action and configuration. -/
theorem filter_pending_nil (trs : List TransitionRec)
    (hfin : ∀ t ∈ trs, t.finished.isSome) (action cfgUuid : String) :
    trs.filter (pendingFilter action cfgUuid) = [] := by
  rw [List.filter_eq_nil_iff]
  intro t ht
  obtain ⟨v, hv⟩ := Option.isSome_iff_exists.mp (hfin t ht)
  simp [pendingFilter, hv]

end Fsm


namespace Fsm

/-- Effect of the expire batch on the store. -/
theorem applyExpireOps (s : FsmStore) (cfg : RecCfg) (now : String) :
    applyFsmWrite s (.batch (expireOps cfg now))
      = { cfgs := putCfgList s.cfgs { cfg with expired := some now }
          pivtokens := s.pivtokens
          recTokens := s.recTokens.map (fun t =>
            if t.recovery_configuration == cfg.uuid && t.expired.isNone
            then { t with expired := some now } else t)
          transitions := s.transitions } := rfl

/-- Effect of the reactivate batch on the store. -/
theorem applyReactivateOps (s : FsmStore) (cfg : RecCfg)
    (tkItems : List RecoveryTokenRec) :
    applyFsmWrite s (.batch (reactivateOps cfg tkItems))
      = { cfgs := putCfgList s.cfgs
            { cfg with staged := none, activated := none, expired := none }
          pivtokens := s.pivtokens
          recTokens := tkItems.foldl
            (fun a t => putTokenList a (clearTk t)) s.recTokens
          transitions := s.transitions.filter
            (fun t => t.recovery_config_uuid ≠ cfg.uuid) } := by
  show (reactivateOps cfg tkItems).foldl applyFsmBatchOp s = _
  simp only [reactivateOps, List.cons_append, List.nil_append, List.foldl_cons,
    List.foldl_map]
  rw [fold_putToken_store]
  rfl

/-- The expire action on an active configuration: one batch, no
transition row, success. -/
theorem transition_expire (s : FsmStore) (u : String) (cfg : RecCfg)
    (c0 st0 a0 uu now : String)
    (hfind : s.cfgs.find? (fun c => c.uuid == u) = some cfg)
    (hc : cfg.created = some c0) (hst : cfg.staged = some st0)
    (ha : cfg.activated = some a0) (he : cfg.expired = none)
    (hpend : s.transitions.filter (pendingFilter "expire" cfg.uuid) = []) :
    transition s "expire" { uuid := u } uu now
      = { store := applyFsmWrite s (.batch (expireOps cfg now))
          trace := [.batch (expireOps cfg now)]
          err := none
          res := some { recoveryConfiguration := { cfg with expired := some now }
                        transition := none } } := by
  simp only [transition, validActions, hfind, hpend]
  simp [getRecCfgState, validTransitionsOf, hc, hst, ha, he]

/-- The reactivate action on an expired configuration: one batch, no
transition row, success. -/
theorem transition_reactivate (s : FsmStore) (u : String) (cfg : RecCfg)
    (c0 st0 a0 e0 uu now : String)
    (hfind : s.cfgs.find? (fun c => c.uuid == u) = some cfg)
    (hc : cfg.created = some c0) (hst : cfg.staged = some st0)
    (ha : cfg.activated = some a0) (he : cfg.expired = some e0)
    (hpend : s.transitions.filter (pendingFilter "reactivate" cfg.uuid) = []) :
    transition s "reactivate" { uuid := u } uu now
      = { store := applyFsmWrite s (.batch (reactivateOps cfg
            (s.recTokens.filter (fun t => t.recovery_configuration == cfg.uuid))))
          trace := [.batch (reactivateOps cfg
            (s.recTokens.filter (fun t => t.recovery_configuration == cfg.uuid)))]
          err := none
          res := some { recoveryConfiguration := cfg, transition := none } } := by
  simp only [transition, validActions, hfind, hpend]
  simp [getRecCfgState, validTransitionsOf, hc, hst, ha, he]

end Fsm

/-- C9: starting from an active configuration C, `expire` issues exactly
one all-or-nothing batch (stamping `expired` on the configuration row
and on all its unexpired recovery tokens) and `reactivate` then issues
exactly one all-or-nothing batch (putting the configuration with
staged/activated/expired removed, delete-manying every transition row of
C, and putting every recovery token of C with those fields removed);
neither action creates a transition row, the configuration ends in the
derived state "created", every recovery token referencing C ends with
staged/activated/expired unset, and exactly the transition rows of C are
gone. -/
theorem c9_expire_reactivate (s : Fsm.FsmStore) (u : String) (cfg : RecCfg)
    (c0 st0 a0 : String) (uu1 uu2 now1 now2 : String)
    (hfind : s.cfgs.find? (fun c => c.uuid == u) = some cfg)
    (hc : cfg.created = some c0) (hst : cfg.staged = some st0)
    (ha : cfg.activated = some a0) (he : cfg.expired = none)
    (hfin : ∀ t ∈ s.transitions, t.finished.isSome) :
    ∃ ops1 ops2,
      Fsm.transition s "expire" { uuid := u } uu1 now1
        = { store := Fsm.applyFsmWrite s (.batch ops1)
            trace := [.batch ops1]
            err := none
            res := some { recoveryConfiguration := { cfg with expired := some now1 }
                          transition := none } }
      ∧ Fsm.transition (Fsm.applyFsmWrite s (.batch ops1)) "reactivate"
            { uuid := u } uu2 now2
          = { store := Fsm.applyFsmWrite (Fsm.applyFsmWrite s (.batch ops1))
                (.batch ops2)
              trace := [.batch ops2]
              err := none
              res := some { recoveryConfiguration := { cfg with expired := some now1 }
                            transition := none } }
      ∧ (Fsm.applyFsmWrite (Fsm.applyFsmWrite s (.batch ops1))
            (.batch ops2)).cfgs.find? (fun c => c.uuid == u)
          = some { cfg with staged := none, activated := none, expired := none }
      ∧ Fsm.getRecCfgState
          { cfg with staged := none, activated := none, expired := none }
          = "created"
      ∧ (∀ t ∈ (Fsm.applyFsmWrite (Fsm.applyFsmWrite s (.batch ops1))
            (.batch ops2)).recTokens,
          t.recovery_configuration = u →
          t.staged = none ∧ t.activated = none ∧ t.expired = none)
      ∧ (Fsm.applyFsmWrite (Fsm.applyFsmWrite s (.batch ops1))
            (.batch ops2)).transitions
          = s.transitions.filter (fun t => t.recovery_config_uuid ≠ u) := by
  have huuid : cfg.uuid = u := by simpa using List.find?_some hfind
  have hpend1 := Fsm.filter_pending_nil s.transitions hfin "expire" cfg.uuid
  have ho1 := Fsm.transition_expire s u cfg c0 st0 a0 uu1 now1
    hfind hc hst ha he hpend1
  have hfind1 : (Fsm.applyFsmWrite s
      (.batch (Fsm.expireOps cfg now1))).cfgs.find? (fun c => c.uuid == u)
      = some { cfg with expired := some now1 } := by
    rw [Fsm.applyExpireOps]
    exact Fsm.find?_putCfgList s.cfgs u cfg _ huuid hfind
  have hpend2 : (Fsm.applyFsmWrite s
      (.batch (Fsm.expireOps cfg now1))).transitions.filter
        (Fsm.pendingFilter "reactivate"
          ({ cfg with expired := some now1 } : RecCfg).uuid) = [] := by
    rw [Fsm.applyExpireOps]
    exact Fsm.filter_pending_nil s.transitions hfin _ _
  have ho2 := Fsm.transition_reactivate
    (Fsm.applyFsmWrite s (.batch (Fsm.expireOps cfg now1))) u
    { cfg with expired := some now1 } c0 st0 a0 now1 uu2 now2
    hfind1 hc hst ha rfl hpend2
  refine ⟨Fsm.expireOps cfg now1,
    Fsm.reactivateOps { cfg with expired := some now1 }
      ((Fsm.applyFsmWrite s (.batch (Fsm.expireOps cfg now1))).recTokens.filter
        (fun t => t.recovery_configuration
          == ({ cfg with expired := some now1 } : RecCfg).uuid)),
    ho1, ho2, ?_, ?_, ?_, ?_⟩
  · rw [Fsm.applyReactivateOps]
    exact Fsm.find?_putCfgList _ u { cfg with expired := some now1 } _ huuid hfind1
  · simp [Fsm.getRecCfgState, hc]
  · intro t ht hrc
    rw [Fsm.applyReactivateOps] at ht
    rcases Fsm.mem_foldl_clear _ _ t ht with ⟨t0, rfl⟩ | ⟨hmem, hall⟩
    · exact ⟨rfl, rfl, rfl⟩
    · exfalso
      have htk : t ∈ (Fsm.applyFsmWrite s
          (.batch (Fsm.expireOps cfg now1))).recTokens.filter
            (fun x => x.recovery_configuration
              == ({ cfg with expired := some now1 } : RecCfg).uuid) :=
        List.mem_filter.mpr ⟨hmem, beq_iff_eq.mpr (hrc.trans huuid.symm)⟩
      exact hall t htk rfl
  · rw [Fsm.applyReactivateOps]
    show s.transitions.filter
        (fun t => t.recovery_config_uuid ≠ cfg.uuid)
      = s.transitions.filter (fun t => t.recovery_config_uuid ≠ u)
    rw [huuid]

namespace Fsm

/-- A concrete active configuration. -/
def cfgC9 : RecCfg :=
  { uuid := "ffffffff-ffff-5fff-afff-ffffffffffff"
    template := "FFFF"
    created := some "2020-01-01T00:00:00.000Z"
    staged := some "2020-01-02T00:00:00.000Z"
    activated := some "2020-01-03T00:00:00.000Z" }

/-- Its (active) recovery token. -/
def tkC9 : RecoveryTokenRec :=
  { uuid := "88888888-8888-5888-a888-888888888888"
    pivtoken := "75CA077A14C5E45037D7A0740D5602A5"
    recovery_configuration := "ffffffff-ffff-5fff-afff-ffffffffffff"
    token := "tok9"
    created := "2020-01-01T00:00:00.000Z"
    staged := some "2020-01-02T00:00:00.000Z"
    activated := some "2020-01-03T00:00:00.000Z" }

/-- A finished transition row from the earlier life cycle. -/
def trDoneC9 : TransitionRec :=
  { uuid := "99999999-9999-4999-a999-999999999999"
    recovery_config_uuid := "ffffffff-ffff-5fff-afff-ffffffffffff"
    name := "stage"
    targets := ["15966912-8fad-41cd-bd82-abe6468354b5"]
    started := some "2020-01-02T00:00:00.000Z"
    finished := some "2020-01-02T00:10:00.000Z" }

/-- The concrete store of the C9 witness. -/
def storeC9 : FsmStore :=
  { cfgs := [cfgC9]
    pivtokens := [{ guid := "75CA077A14C5E45037D7A0740D5602A5"
                    cn_uuid := "15966912-8fad-41cd-bd82-abe6468354b5" }]
    recTokens := [tkC9]
    transitions := [trDoneC9] }

end Fsm

/-- C9 witness: the theorem applied at the concrete store above. -/
theorem c9_expire_reactivate_witness :
    ∃ ops1 ops2,
      Fsm.transition Fsm.storeC9 "expire" { uuid := Fsm.cfgC9.uuid } "u1" "t1"
        = { store := Fsm.applyFsmWrite Fsm.storeC9 (.batch ops1)
            trace := [.batch ops1]
            err := none
            res := some { recoveryConfiguration := { Fsm.cfgC9 with expired := some "t1" }
                          transition := none } }
      ∧ Fsm.transition (Fsm.applyFsmWrite Fsm.storeC9 (.batch ops1)) "reactivate"
            { uuid := Fsm.cfgC9.uuid } "u2" "t2"
          = { store := Fsm.applyFsmWrite (Fsm.applyFsmWrite Fsm.storeC9 (.batch ops1))
                (.batch ops2)
              trace := [.batch ops2]
              err := none
              res := some { recoveryConfiguration := { Fsm.cfgC9 with expired := some "t1" }
                            transition := none } }
      ∧ (Fsm.applyFsmWrite (Fsm.applyFsmWrite Fsm.storeC9 (.batch ops1))
            (.batch ops2)).cfgs.find? (fun c => c.uuid == Fsm.cfgC9.uuid)
          = some { Fsm.cfgC9 with staged := none, activated := none, expired := none }
      ∧ Fsm.getRecCfgState
          { Fsm.cfgC9 with staged := none, activated := none, expired := none }
          = "created"
      ∧ (∀ t ∈ (Fsm.applyFsmWrite (Fsm.applyFsmWrite Fsm.storeC9 (.batch ops1))
            (.batch ops2)).recTokens,
          t.recovery_configuration = Fsm.cfgC9.uuid →
          t.staged = none ∧ t.activated = none ∧ t.expired = none)
      ∧ (Fsm.applyFsmWrite (Fsm.applyFsmWrite Fsm.storeC9 (.batch ops1))
            (.batch ops2)).transitions
          = Fsm.storeC9.transitions.filter
              (fun t => t.recovery_config_uuid ≠ Fsm.cfgC9.uuid) := by
  exact c9_expire_reactivate Fsm.storeC9 Fsm.cfgC9.uuid Fsm.cfgC9
    "2020-01-01T00:00:00.000Z" "2020-01-02T00:00:00.000Z"
    "2020-01-03T00:00:00.000Z" "u1" "u2" "t1" "t2"
    (by decide) rfl rfl rfl rfl (by decide)
